import Mathlib

/-
Shallow embedding of the data-preparation and query pipeline of
src/finalproject.py (a Streamlit dashboard over a skyscrapers CSV).

Modelling conventions:
- a pandas dataframe is a list of records, in row order;
- float columns (heights, coordinates) are modelled as exact rationals;
- the raw `location.city` column holds either a missing value (NaN) or a
  parsed cell (text, or a numeric-looking value parsed as a number);
- the in-place `replace(0, "Unknown")` on the year column of derived
  frames (lines 39, 117, 152) is modelled by a sum type for the year cell
  of those derived frames.
-/

/-- CityCell models a present value of the raw `location.city` column in
one CSV row: either a textual value or a numeric-looking value that
`pd.read_csv` parsed as a number. -/
inductive CityCell where
  | str (s : String)
  | intNum (n : ℤ)
deriving DecidableEq

/-- pyStr models Python `str()` as applied by `.astype(str)` on line 18 of
finalproject.py: the identity on text, decimal rendering on numbers. -/
def pyStr : CityCell → String
  | .str s => s
  | .intNum n => toString n

/-- RawRecord models one row of `skyscrapers.csv` as parsed by
`pd.read_csv` on line 10; a missing city cell (NaN) is `none`. -/
structure RawRecord where
  name : String
  city : Option CityCell
  height : ℚ
  latitude : Option ℚ
  longitude : Option ℚ
  isCompleted : Bool
  completionYear : ℤ
deriving DecidableEq

/-- Record models one row of the cleaned store `df` after line 15 (drop
rows with `height <= 0` or a NaN city), line 18 (coerce city to string)
and line 21 (rename the coordinate columns to latitude/longitude). -/
structure Record where
  name : String
  city : String
  height : ℚ
  latitude : Option ℚ
  longitude : Option ℚ
  isCompleted : Bool
  completionYear : ℤ
deriving DecidableEq

/-- load models lines 15-21 of finalproject.py: keep exactly the rows with
positive height and a present city value, and coerce the city cell to a
string. -/
def load (raw : List RawRecord) : List Record :=
  raw.filterMap fun r =>
    match r.city with
    | none => none
    | some c =>
      if 0 < r.height then
        some ⟨r.name, pyStr c, r.height, r.latitude, r.longitude,
              r.isCompleted, r.completionYear⟩
      else none

/-- leH is the ascending boolean comparison on the height column. -/
def leH (a b : Record) : Bool := decide (a.height ≤ b.height)

/-- sortValues models line 33, `df.sort_values(by='statistics.height',
ascending=False)`: pandas (`nargsort`) computes an ascending argsort of
the key column and reverses the resulting indexer, so the model is a
stable ascending sort followed by a reversal of the whole list. -/
def sortValues (df : List Record) : List Record := (df.mergeSort leH).reverse

/-- get_tallest_skyscrapers models lines 24-30.  The Python function reads
the module global `df`; both of its call sites (lines 114 and 149) run
after line 33, so the dataframe it sees is the height-sorted store, passed
here as an explicit argument. -/
def get_tallest_skyscrapers (df : List Record) (city : String) (top_n : ℕ) :
    List Record × ℕ :=
  let city_df :=
    if city = "ALL CITIES" then df.take top_n
    else (df.filter fun r => decide (r.city = city)).take top_n
  (city_df, city_df.length)

/-- YearVal models a cell of the `status.completed.year` column of a
derived frame after the in-place `replace(0, "Unknown")`: either a numeric
year or the substituted string. -/
inductive YearVal where
  | num (y : ℤ)
  | unknown
deriving DecidableEq

/-- substYearVal models `replace(0, "Unknown")` on one year cell. -/
def substYearVal (y : ℤ) : YearVal := if y = 0 then .unknown else .num y

/-- DRecord is a row of a derived (display-side) frame whose year column
has undergone the `replace(0, "Unknown")` substitution. -/
structure DRecord where
  name : String
  city : String
  height : ℚ
  latitude : Option ℚ
  longitude : Option ℚ
  isCompleted : Bool
  year : YearVal
deriving DecidableEq

/-- substYears applies the year substitution to one store record,
producing the corresponding derived-frame row. -/
def substYears (r : Record) : DRecord :=
  ⟨r.name, r.city, r.height, r.latitude, r.longitude, r.isCompleted,
   substYearVal r.completionYear⟩

/-- completed_df models lines 36 and 39: restrict the sorted store to
completed buildings, then replace year 0 by "Unknown" in place.  The
boolean-mask indexing on line 36 copies the selected rows, so the line 39
assignment changes only this derived frame, never `df` itself. -/
def completed_df (df : List Record) : List DRecord :=
  (df.filter fun r => r.isCompleted).map substYears

/-- filtered_df models lines 76-79: the completed view, restricted to the
selected city unless "ALL CITIES" is selected. -/
def filtered_df (cdf : List DRecord) (city : String) : List DRecord :=
  if city = "ALL CITIES" then cdf
  else cdf.filter fun r => decide (r.city = city)

/-- avg_height models line 99,
`filtered_df.groupby('status.completed.year')['statistics.height'].mean()`,
viewed as the mapping that sends a group key to the mean height of its
group, and to `none` when no row carries that key. -/
def avg_height (rs : List DRecord) (k : YearVal) : Option ℚ :=
  let g := rs.filter fun r => decide (r.year = k)
  if g.isEmpty then none
  else some ((g.map fun r => r.height).sum / (g.length : ℚ))

/-- rawYearGroupMean is the spec-side description of the aggregation
(section 4.3 of spec.md): group the completed records by the RAW numeric
`completionYear` and average the heights, with no entry for absent years.
It is compared against `avg_height` over `completed_df`. -/
def rawYearGroupMean (store : List Record) (y : ℤ) : Option ℚ :=
  let g := store.filter fun r => r.isCompleted && decide (r.completionYear = y)
  if g.isEmpty then none
  else some ((g.map fun r => r.height).sum / (g.length : ℚ))

/-- map_filtered_df models lines 188-194: restrict the sorted store to the
inclusive height range and, unless "ALL CITIES" is selected, to the
selected city. -/
def map_filtered_df (df : List Record) (city : String) (lo hi : ℚ) :
    List Record :=
  if city = "ALL CITIES" then
    df.filter fun r => decide (lo ≤ r.height) && decide (r.height ≤ hi)
  else
    df.filter fun r =>
      decide (r.city = city) && decide (lo ≤ r.height) && decide (r.height ≤ hi)

/-- top_skyscrapers_default models the variable of that name after line
117 (and its twin after line 152): the frame returned by
get_tallest_skyscrapers with its year column replaced in place. -/
def top_skyscrapers_default (df : List Record) (city : String) (n : ℕ) :
    List DRecord :=
  ((get_tallest_skyscrapers df city n).1).map substYears

/-- stripWS drops leading and trailing whitespace characters from a
character list, modelling Python `str.strip()` on ASCII text. -/
def stripWS (l : List Char) : List Char :=
  ((l.dropWhile Char.isWhitespace).reverse.dropWhile Char.isWhitespace).reverse

/-- pyStrip models Python `str.strip()`. -/
def pyStrip (s : String) : String := ⟨stripWS s.data⟩

/-- pyLower models Python `str.lower()` on ASCII text, as used on lines 54
and 58. -/
def pyLower (s : String) : String := ⟨s.data.map Char.toLower⟩

/-- standardize models line 54, `skyscraper_name_input.strip().lower()`. -/
def standardize (input : String) : String := pyLower (pyStrip input)

/-- SearchResult models the three sidebar outcomes of lines 57-65: the
city of a found skyscraper, the "no skyscraper named ..." message, or the
blank-input prompt of line 65. -/
inductive SearchResult where
  | found (city : String)
  | notFound
  | blankPrompt
deriving DecidableEq

/-- findCityOfSkyscraper models lines 54-65: the truthiness guard on line
57 (an input that strips to the empty string is never searched), the
case-insensitive match of line 58 (the record name is lowercased but NOT
stripped), and the first-row selection `iloc[0]` of line 60.  At line 58
the module global `df` is the sorted store. -/
def findCityOfSkyscraper (df : List Record) (input : String) : SearchResult :=
  let standardized := standardize input
  if standardized = "" then .blankPrompt
  else
    match df.find? (fun r => decide (pyLower r.name = standardized)) with
    | some r => .found r.city
    | none => .notFound

/-- roundHalfEven rounds a rational to the nearest integer with ties to
even, the rounding Python `format` applies to the scaled value. -/
def roundHalfEven (q : ℚ) : ℤ :=
  if q - ⌊q⌋ < 1/2 then ⌊q⌋
  else if 1/2 < q - ⌊q⌋ then ⌊q⌋ + 1
  else if ⌊q⌋ % 2 = 0 then ⌊q⌋ else ⌊q⌋ + 1

/-- twoDigits renders a natural number below 100 with exactly two decimal
digits. -/
def twoDigits (m : ℕ) : String :=
  if m < 10 then "0" ++ toString m else toString m

/-- fmt2 models the f-string `f"{x:.2f}"` of lines 89, 128 and 163 for the
nonnegative heights of the store: scale by 100, round half to even, and
print the integer and two-digit fractional parts. -/
def fmt2 (x : ℚ) : String :=
  toString ((roundHalfEven (100 * x)).toNat / 100) ++ "." ++
    twoDigits ((roundHalfEven (100 * x)).toNat % 100)

/-- pyRstrip models Python `str.rstrip(c)` with a single strip character:
remove every trailing occurrence of `c`. -/
def pyRstrip (s : String) (c : Char) : String :=
  ⟨(s.data.reverse.dropWhile fun d => decide (d = c)).reverse⟩

/-- formatHeight models the display lambda of lines 89, 128 and 163:
format to two decimal places, strip trailing zeros, then strip a trailing
decimal point. -/
def formatHeight (x : ℚ) : String := pyRstrip (pyRstrip (fmt2 x) '0') '.'

/-- ReadResult models the outcome of `pd.read_csv('skyscrapers.csv')` on
line 10: parsed rows, or a FileNotFoundError. -/
inductive ReadResult where
  | csv (rows : List RawRecord)
  | fileNotFound

/-- InitOutcome models how module initialisation (lines 9-21) ends: a
cleaned store, or a crash after printing a message.  When the file is
missing, the handler on lines 11-12 prints "File not found." and execution
continues, so line 15 reads the never-assigned global `df` and the process
dies with a NameError; no exception type of the program models the spec's
DataSourceError. -/
inductive InitOutcome where
  | ok (df : List Record)
  | crashedNameError (printed : String)
deriving DecidableEq

/-- runModuleInit models lines 9-21 of finalproject.py end to end. -/
def runModuleInit : ReadResult → InitOutcome
  | .csv rows => .ok (load rows)
  | .fileNotFound => .crashedNameError "File not found."

/-- bldA is a sample completed building with the unknown-year sentinel 0. -/
def bldA : Record := ⟨"A", "X", 100, none, none, true, 0⟩

/-- bldB is a sample building with the same height as bldA. -/
def bldB : Record := ⟨"B", "Y", 100, none, none, true, 1999⟩

/-- bldC is a sample uncompleted building, taller than bldA and bldB. -/
def bldC : Record := ⟨"C", "X", 300, none, none, false, 2005⟩

/-- tieStore is a two-record store whose records have equal heights. -/
def tieStore : List Record := [bldA, bldB]

/-- leH is transitive. -/
lemma leH_trans : ∀ a b c : Record, leH a b → leH b c → leH a c := by
  intro a b c hab hbc
  simp only [leH, decide_eq_true_eq] at *
  exact le_trans hab hbc

/-- leH is total. -/
lemma leH_total : ∀ a b : Record, leH a b || leH b a := by
  intro a b
  simp only [leH, Bool.or_eq_true, decide_eq_true_eq]
  exact le_total a.height b.height

/-- sortValues permutes the store. -/
lemma sortValues_perm (df : List Record) : (sortValues df).Perm df :=
  (List.reverse_perm _).trans (List.mergeSort_perm df leH)

/-- sortValues is non-increasing in height over its whole length. -/
lemma sortValues_sorted (df : List Record) :
    (sortValues df).Pairwise (fun a b => b.height ≤ a.height) := by
  have h := List.sorted_mergeSort leH_trans leH_total df
  rw [sortValues, List.pairwise_reverse]
  exact h.imp fun hab => by
    simpa [leH, decide_eq_true_eq] using hab

/-- sortValues of a store already listed in ascending height order is the
reversed store (used to evaluate sortValues on concrete inputs). -/
lemma sortValues_of_sorted {df : List Record}
    (h : df.Pairwise fun a b => leH a b = true) :
    sortValues df = df.reverse := by
  rw [sortValues, List.mergeSort_of_sorted h]

/-- mergeSort leaves a filter untouched when the filtered elements are
pairwise tied for the comparison: the stability of the sort. -/
lemma mergeSort_filter_of_tied (l : List Record) (p : Record → Bool)
    (hp : ∀ a b : Record, p a = true → p b = true → leH a b = true) :
    (l.mergeSort leH).filter p = l.filter p := by
  have hpair : (l.filter p).Pairwise (fun a b => leH a b = true) := by
    rw [List.pairwise_iff_forall_sublist]
    intro a b hs
    have ha : a ∈ l.filter p := hs.subset (by simp)
    have hb : b ∈ l.filter p := hs.subset (by simp)
    exact hp a b (List.mem_filter.mp ha).2 (List.mem_filter.mp hb).2
  have hsub : (l.filter p).Sublist (l.mergeSort leH) :=
    List.sublist_mergeSort leH_trans leH_total hpair (List.filter_sublist l)
  have hself : (l.filter p).filter p = l.filter p :=
    List.filter_eq_self.mpr fun a ha => (List.mem_filter.mp ha).2
  have hsub2 : (l.filter p).Sublist ((l.mergeSort leH).filter p) := by
    have := List.Sublist.filter p hsub
    rwa [hself] at this
  have hperm : ((l.mergeSort leH).filter p).Perm (l.filter p) :=
    (List.mergeSort_perm l leH).filter p
  exact (hsub2.eq_of_length hperm.length_eq.symm).symm

/-- sortValues reverses each class of equal-height records: the filter of
the sorted store to one height value is the reversed filter of the store. -/
lemma sortValues_filter_ties (df : List Record) (h : ℚ) :
    (sortValues df).filter (fun r => decide (r.height = h)) =
      (df.filter (fun r => decide (r.height = h))).reverse := by
  rw [sortValues, List.filter_reverse, mergeSort_filter_of_tied]
  intro a b ha hb
  simp only [decide_eq_true_eq] at ha hb
  simp [leH, ha, hb]

/-- toDigitsCore never shortens its accumulator. -/
lemma toDigitsCore_length_le (b : ℕ) :
    ∀ (f n : ℕ) (ds : List Char),
      ds.length ≤ (Nat.toDigitsCore b f n ds).length := by
  intro f
  induction f with
  | zero => intro n ds; simp [Nat.toDigitsCore]
  | succ f ih =>
    intro n ds
    simp only [Nat.toDigitsCore]
    split
    · simp
    · exact le_trans (by simp) (ih (n / b) (Nat.digitChar (n % b) :: ds))

/-- toDigitsCore with positive fuel returns at least one digit. -/
lemma toDigitsCore_length_pos (b f n : ℕ) (ds : List Char) :
    0 < (Nat.toDigitsCore b (f + 1) n ds).length := by
  simp only [Nat.toDigitsCore]
  split
  · simp
  · exact lt_of_lt_of_le (by simp)
      (toDigitsCore_length_le b f (n / b) (Nat.digitChar (n % b) :: ds))

/-- decimal rendering of a natural number is never the empty string. -/
lemma nat_repr_ne_empty (n : ℕ) : Nat.repr n ≠ "" := by
  intro h
  have h2 : (Nat.toDigits 10 n).length = 0 := by
    have h3 := congrArg (fun s => s.data.length) h
    simpa [Nat.repr, List.asString] using h3
  have h4 : 0 < (Nat.toDigits 10 n).length := by
    unfold Nat.toDigits
    exact toDigitsCore_length_pos 10 n n []
  omega

/-- decimal rendering of an integer is never the empty string. -/
lemma int_toString_ne_empty (n : ℤ) : toString n ≠ "" := by
  show Int.repr n ≠ ""
  cases n with
  | ofNat m => exact nat_repr_ne_empty m
  | negSucc m =>
    intro h
    have h2 := congrArg (fun s => s.data) h
    simp only [Int.repr, String.data_append] at h2
    exact absurd h2 (by simp)

/-- pyStr never returns the empty string on a cell that did not hold the
empty string. -/
lemma pyStr_ne_empty (c : CityCell) (h : ∀ s, c = CityCell.str s → s ≠ "") :
    pyStr c ≠ "" := by
  cases c with
  | str s => exact h s rfl
  | intNum n => exact int_toString_ne_empty n

/-- substYears preserves the height column. -/
lemma substYears_height : (fun d => d.height) ∘ substYears = fun r : Record => r.height := by
  funext r
  rfl

/-- membership in the cleaned store: every record comes from a raw row
with a present city and positive height. -/
lemma mem_load {raw : List RawRecord} {rec : Record} (h : rec ∈ load raw) :
    ∃ rr ∈ raw, ∃ c, rr.city = some c ∧ 0 < rr.height ∧
      rec = ⟨rr.name, pyStr c, rr.height, rr.latitude, rr.longitude,
             rr.isCompleted, rr.completionYear⟩ := by
  rw [load, List.mem_filterMap] at h
  obtain ⟨rr, hmem, heq⟩ := h
  refine ⟨rr, hmem, ?_⟩
  cases hc : rr.city with
  | none => rw [hc] at heq; simp at heq
  | some c =>
    rw [hc] at heq
    simp only [Option.ite_none_right_eq_some, Option.some.injEq] at heq
    exact ⟨c, rfl, heq.1, heq.2.symm⟩

/-- C9: when the raw dataset is absent, module initialisation does not
surface any DataSourceError-like failure and does not refuse queries in a
controlled way: the handler prints "File not found." and continues, and
the run dies with a NameError on the first use of the unbound `df`; no
cleaned store is ever produced. -/
theorem C9_load_failure_is_nameError :
    runModuleInit ReadResult.fileNotFound =
      InitOutcome.crashedNameError "File not found." ∧
    (∀ store : List Record,
      runModuleInit ReadResult.fileNotFound ≠ InitOutcome.ok store) ∧
    (∀ rows : List RawRecord,
      runModuleInit (ReadResult.csv rows) = InitOutcome.ok (load rows)) :=
  ⟨rfl, fun _ h => InitOutcome.noConfusion h, fun _ => rfl⟩

/-- C5: formatHeight formats to two decimal places, strips trailing zeros
and then a trailing decimal point; on 300, 300.5 and 300.25 it returns
"300", "300.5" and "300.25" byte for byte. -/
theorem C5_formatHeight_contract :
    formatHeight 300 = "300" ∧
    formatHeight (300.5 : ℚ) = "300.5" ∧
    formatHeight (300.25 : ℚ) = "300.25" ∧
    ∀ x : ℚ, formatHeight x = pyRstrip (pyRstrip (fmt2 x) '0') '.' := by
  refine ⟨?_, ?_, ?_, fun x => rfl⟩
  · have h : roundHalfEven ((100 : ℚ) * 300) = 30000 := by
      rw [roundHalfEven]; norm_num
    rw [formatHeight, fmt2, h]; rfl
  · have h : roundHalfEven ((100 : ℚ) * 300.5) = 30050 := by
      rw [roundHalfEven]; norm_num
    rw [formatHeight, fmt2, h]; rfl
  · have h : roundHalfEven ((100 : ℚ) * 300.25) = 30025 := by
      rw [roundHalfEven]; norm_num
    rw [formatHeight, fmt2, h]; rfl

/-- C10 counterexample: at the in-range input 1/1000 the claimed output ""
is wrong: the code renders "0" (stripping "0.00" leaves the leading zero). -/
theorem C10_counterexample :
    (0 : ℚ) < 1/1000 ∧ (1/1000 : ℚ) < 1/200 ∧
    formatHeight (1/1000 : ℚ) = "0" ∧ ("0" : String) ≠ "" := by
  refine ⟨by norm_num, by norm_num, ?_, by decide⟩
  have h : roundHalfEven ((100 : ℚ) * (1/1000)) = 0 := by
    rw [roundHalfEven]; norm_num
  rw [formatHeight, fmt2, h]; rfl

/-- C10 amended: for every height strictly between 0 and 0.005 the value
formats to "0.00"; stripping trailing zeros leaves "0." (the leading zero
is not trailing) and stripping the point leaves "0", so the cell renders
"0", not a blank. -/
theorem C10_tiny_heights_render_zero (x : ℚ) (h1 : 0 < x) (h2 : x < 1/200) :
    formatHeight x = "0" := by
  have hfl : ⌊(100 : ℚ) * x⌋ = 0 := by
    rw [Int.floor_eq_zero_iff]
    constructor
    · positivity
    · show (100 : ℚ) * x < 1
      nlinarith
  have h : roundHalfEven ((100 : ℚ) * x) = 0 := by
    rw [roundHalfEven, hfl]
    rw [if_pos]
    push_cast
    nlinarith
  rw [formatHeight, fmt2, h]; rfl

/-- C10 witness: the amended statement evaluated at 1/1000. -/
theorem C10_tiny_heights_render_zero_witness :
    (0 : ℚ) < 1/1000 ∧ (1/1000 : ℚ) < 1/200 ∧ formatHeight (1/1000 : ℚ) = "0" :=
  ⟨by norm_num, by norm_num,
   C10_tiny_heights_render_zero (1/1000) (by norm_num) (by norm_num)⟩

/-- C3 counterexample: sorting the two equal-height records of tieStore
reverses them, so the claimed stability (equal heights keep the original
load order, which would leave tieStore unchanged) is false. -/
theorem C3_counterexample :
    sortValues tieStore = [bldB, bldA] ∧
    sortValues tieStore ≠ tieStore ∧
    bldA.height = bldB.height := by
  have h : sortValues tieStore = [bldB, bldA] := by
    rw [sortValues_of_sorted (by decide)]; rfl
  exact ⟨h, by rw [h]; decide, by decide⟩

/-- C3 amended: sortedByHeightDescending is a permutation of the store
with non-increasing heights, but it is not stable: `sort_values` with
`ascending=False` reverses an ascending argsort, so each class of
equal-height records appears in REVERSE of its load order. -/
theorem C3_sortedByHeightDescending (store : List Record) :
    (sortValues store).Perm store ∧
    (sortValues store).Pairwise (fun a b => b.height ≤ a.height) ∧
    ∀ h : ℚ, (sortValues store).filter (fun r => decide (r.height = h)) =
      (store.filter (fun r => decide (r.height = h))).reverse :=
  ⟨sortValues_perm store, sortValues_sorted store, sortValues_filter_ties store⟩

/-- C4 counterexample: on the whitespace-only input " " the code never
searches and emits the blank-input prompt of line 65, not a not-found
result, although no record of the store matches " ". -/
theorem C4_counterexample :
    findCityOfSkyscraper (sortValues [bldA]) " " = SearchResult.blankPrompt ∧
    SearchResult.blankPrompt ≠ SearchResult.notFound := by
  constructor
  · rw [sortValues_of_sorted (by decide)]; rfl
  · decide

/-- C4 amended: for every input whose stripped, lowercased form is
non-empty, the code matches it case-insensitively against each record's
lowercased (not stripped) name and returns the city of the first matching
record in store order — duplicates are never flagged — and a not-found
result when no record matches; blank or whitespace-only input instead
yields the prompt, short-circuiting the search. -/
theorem C4_findCityOfSkyscraper (df : List Record) (input : String)
    (h : standardize input ≠ "") :
    (∀ r : Record,
      df.find? (fun s => decide (pyLower s.name = standardize input)) = some r →
        findCityOfSkyscraper df input = SearchResult.found r.city ∧
        r ∈ df ∧ pyLower r.name = standardize input) ∧
    (df.find? (fun s => decide (pyLower s.name = standardize input)) = none →
      findCityOfSkyscraper df input = SearchResult.notFound) := by
  constructor
  · intro r hr
    have hp := List.find?_some hr
    simp only [decide_eq_true_eq] at hp
    refine ⟨?_, List.mem_of_find?_eq_some hr, hp⟩
    simp only [findCityOfSkyscraper]
    rw [if_neg h, hr]
  · intro hr
    simp only [findCityOfSkyscraper]
    rw [if_neg h, hr]

/-- C4 witness: the amended statement at the store [bldA] and the input
" A ", which standardizes to "a" and finds bldA in city "X". -/
theorem C4_findCityOfSkyscraper_witness :
    standardize " A " ≠ "" ∧
    ((∀ r : Record,
      [bldA].find? (fun s => decide (pyLower s.name = standardize " A ")) = some r →
        findCityOfSkyscraper [bldA] " A " = SearchResult.found r.city ∧
        r ∈ [bldA] ∧ pyLower r.name = standardize " A ") ∧
    ([bldA].find? (fun s => decide (pyLower s.name = standardize " A ")) = none →
      findCityOfSkyscraper [bldA] " A " = SearchResult.notFound)) :=
  ⟨by decide, C4_findCityOfSkyscraper [bldA] " A " (by decide)⟩

/-- availableRecords is the pool get_tallest_skyscrapers draws from: the
whole dataframe for "ALL CITIES", otherwise the rows of the given city. -/
def availableRecords (df : List Record) (city : String) : List Record :=
  if city = "ALL CITIES" then df else df.filter fun r => decide (r.city = city)

/-- C6: get_tallest_skyscrapers returns a pair whose count is the length
of the returned rows, and when the requested n is at least the number of
available matching rows it returns exactly all of them with their actual
count — no error, no silent mismatch. -/
theorem C6_count_matches_records (df : List Record) (city : String) (n : ℕ)
    (hn : 0 < n) :
    (get_tallest_skyscrapers df city n).2 =
      (get_tallest_skyscrapers df city n).1.length ∧
    ((availableRecords df city).length ≤ n →
      (get_tallest_skyscrapers df city n).1 = availableRecords df city ∧
      (get_tallest_skyscrapers df city n).2 = (availableRecords df city).length) := by
  constructor
  · rfl
  · intro hle
    by_cases h : city = "ALL CITIES"
    · simp only [get_tallest_skyscrapers, availableRecords, if_pos h] at hle ⊢
      rw [List.take_of_length_le hle]
      exact ⟨rfl, rfl⟩
    · simp only [get_tallest_skyscrapers, availableRecords, if_neg h] at hle ⊢
      rw [List.take_of_length_le hle]
      exact ⟨rfl, rfl⟩

/-- C6 witness: the statement at the three-record store, city "X" and
n = 5, where only bldA and bldC are available. -/
theorem C6_count_matches_records_witness :
    0 < 5 ∧
    ((get_tallest_skyscrapers [bldA, bldB, bldC] "X" 5).2 =
      (get_tallest_skyscrapers [bldA, bldB, bldC] "X" 5).1.length ∧
    ((availableRecords [bldA, bldB, bldC] "X").length ≤ 5 →
      (get_tallest_skyscrapers [bldA, bldB, bldC] "X" 5).1 =
        availableRecords [bldA, bldB, bldC] "X" ∧
      (get_tallest_skyscrapers [bldA, bldB, bldC] "X" 5).2 =
        (availableRecords [bldA, bldB, bldC] "X").length)) :=
  ⟨by decide, C6_count_matches_records [bldA, bldB, bldC] "X" 5 (by decide)⟩

/-- C8 counterexample: a store whose single record is completed with the
raw year 0 yields a completed view whose record carries the substituted
"Unknown" value, not the raw numeric 0 — the derived view does not keep
the raw value. -/
theorem C8_counterexample :
    (completed_df (sortValues [bldA])).map (fun d => d.year) = [YearVal.unknown] ∧
    YearVal.unknown ≠ YearVal.num 0 ∧
    bldA.isCompleted = true ∧ bldA.completionYear = 0 := by
  refine ⟨?_, by decide, by decide, by decide⟩
  rw [sortValues_of_sorted (by decide)]
  rfl

/-- C8 amended: the substitution never reaches the store — the sorted
store is a permutation of the very records of the store, and every row a
query returns is one of the store's records, whose completionYear is the
raw integer — but it is applied in place to the derived views: no row of
the completed view or of the displayed top-N frames carries a numeric
year 0; year-0 rows carry "Unknown" there. -/
theorem C8_substitution_store_vs_views (store : List Record) (city : String)
    (n : ℕ) :
    (∀ r : Record, r ∈ sortValues store ↔ r ∈ store) ∧
    (∀ r ∈ (get_tallest_skyscrapers (sortValues store) city n).1, r ∈ store) ∧
    (∀ d ∈ completed_df (sortValues store), d.year ≠ YearVal.num 0) ∧
    (∀ d ∈ top_skyscrapers_default (sortValues store) city n,
      d.year ≠ YearVal.num 0) := by
  have hsub : ∀ r : Record, (substYears r).year ≠ YearVal.num 0 := by
    intro r
    show substYearVal r.completionYear ≠ YearVal.num 0
    rw [substYearVal]
    by_cases h0 : r.completionYear = 0
    · simp [h0]
    · simp [h0]
  have hmem : ∀ r ∈ (get_tallest_skyscrapers (sortValues store) city n).1,
      r ∈ store := by
    intro r hr
    rw [← (sortValues_perm store).mem_iff]
    by_cases h : city = "ALL CITIES"
    · simp only [get_tallest_skyscrapers, if_pos h] at hr
      exact List.mem_of_mem_take hr
    · simp only [get_tallest_skyscrapers, if_neg h] at hr
      exact (List.mem_filter.mp (List.mem_of_mem_take hr)).1
  refine ⟨fun r => (sortValues_perm store).mem_iff, hmem, ?_, ?_⟩
  · intro d hd
    obtain ⟨r, _, rfl⟩ := List.mem_map.mp hd
    exact hsub r
  · intro d hd
    obtain ⟨r, _, rfl⟩ := List.mem_map.mp hd
    exact hsub r

/-- C2: on the sorted store, get_tallest_skyscrapers with "ALL CITIES"
returns the first n rows of the height-descending full store (never
filtered by completion status), which are n globally tallest records —
every returned row is at least as tall as every row left behind; for any
other city it returns the first n rows of the sorted store restricted to
that city, still in descending height order. -/
theorem C2_topNTallest (store : List Record) (city : String) (n : ℕ)
    (hn : 0 < n) :
    (get_tallest_skyscrapers (sortValues store) "ALL CITIES" n).1 =
      (sortValues store).take n ∧
    (∀ a ∈ (get_tallest_skyscrapers (sortValues store) "ALL CITIES" n).1,
      ∀ b ∈ (sortValues store).drop n, b.height ≤ a.height) ∧
    (city ≠ "ALL CITIES" →
      (get_tallest_skyscrapers (sortValues store) city n).1 =
        ((sortValues store).filter fun r => decide (r.city = city)).take n ∧
      ((get_tallest_skyscrapers (sortValues store) city n).1).Pairwise
        (fun a b => b.height ≤ a.height)) := by
  have hall : (get_tallest_skyscrapers (sortValues store) "ALL CITIES" n).1 =
      (sortValues store).take n := by
    simp [get_tallest_skyscrapers]
  refine ⟨hall, ?_, ?_⟩
  · intro a ha b hb
    rw [hall] at ha
    have hp : ((sortValues store).take n ++ (sortValues store).drop n).Pairwise
        (fun a b => b.height ≤ a.height) := by
      rw [List.take_append_drop]
      exact sortValues_sorted store
    exact (List.pairwise_append.mp hp).2.2 a ha b hb
  · intro hc
    have heq : (get_tallest_skyscrapers (sortValues store) city n).1 =
        ((sortValues store).filter fun r => decide (r.city = city)).take n := by
      simp [get_tallest_skyscrapers, hc]
    refine ⟨heq, ?_⟩
    rw [heq]
    exact List.Pairwise.sublist
      ((List.take_sublist _ _).trans (List.filter_sublist _))
      (sortValues_sorted store)

/-- C2 witness: the statement at the three-record store, city "X", n = 2. -/
theorem C2_topNTallest_witness :
    0 < 2 ∧
    ((get_tallest_skyscrapers (sortValues [bldA, bldB, bldC]) "ALL CITIES" 2).1 =
      (sortValues [bldA, bldB, bldC]).take 2 ∧
    (∀ a ∈ (get_tallest_skyscrapers (sortValues [bldA, bldB, bldC]) "ALL CITIES" 2).1,
      ∀ b ∈ (sortValues [bldA, bldB, bldC]).drop 2, b.height ≤ a.height) ∧
    ("X" ≠ "ALL CITIES" →
      (get_tallest_skyscrapers (sortValues [bldA, bldB, bldC]) "X" 2).1 =
        ((sortValues [bldA, bldB, bldC]).filter fun r => decide (r.city = "X")).take 2 ∧
      ((get_tallest_skyscrapers (sortValues [bldA, bldB, bldC]) "X" 2).1).Pairwise
        (fun a b => b.height ≤ a.height))) :=
  ⟨by decide, C2_topNTallest [bldA, bldB, bldC] "X" 2 (by decide)⟩

/-- the filter of the completed view to a nonzero numeric year key is the
image of the raw-year filter of the underlying dataframe: the substitution
only moves rows whose raw year is 0, and those land under "Unknown". -/
lemma completed_filter_year (l : List Record) (y : ℤ) (hy : y ≠ 0) :
    (completed_df l).filter (fun d => decide (d.year = YearVal.num y)) =
      (l.filter fun r => r.isCompleted && decide (r.completionYear = y)).map
        substYears := by
  rw [completed_df, List.filter_map, List.filter_filter]
  congr 1
  apply List.filter_congr
  intro r _
  have hz : decide (substYearVal r.completionYear = YearVal.num y) =
      decide (r.completionYear = y) := by
    by_cases h0 : r.completionYear = 0
    · rw [h0]
      simp [substYearVal, Ne.symm hy]
    · simp [substYearVal, h0]
  simp only [Function.comp_apply]
  have hyr : (substYears r).year = substYearVal r.completionYear := rfl
  rw [hyr, hz, Bool.and_comm]

/-- exampleYearRecords is the worked example of the claim: completed rows
with years 2000, 2000, 2010 and heights 100, 200, 300. -/
def exampleYearRecords : List DRecord :=
  [⟨"E1", "X", 100, none, none, true, .num 2000⟩,
   ⟨"E2", "X", 200, none, none, true, .num 2000⟩,
   ⟨"E3", "X", 300, none, none, true, .num 2010⟩]

/-- C1 counterexample: a store whose single record is completed with raw
year 0 and height 100.  The groupby runs after the in-place substitution,
so there is NO group keyed by the raw numeric 0 — the row is aggregated
under the "Unknown" key instead, against the claim. -/
theorem C1_counterexample :
    avg_height (completed_df (sortValues [bldA])) (YearVal.num 0) = none ∧
    avg_height (completed_df (sortValues [bldA])) YearVal.unknown = some 100 ∧
    bldA.isCompleted = true ∧ bldA.completionYear = 0 ∧ bldA.height = 100 := by
  have hs : sortValues [bldA] = [bldA] := by
    rw [sortValues_of_sorted (by decide)]; rfl
  have hc : completed_df [bldA] =
      [⟨"A", "X", 100, none, none, true, YearVal.unknown⟩] := rfl
  refine ⟨?_, ?_, by decide, by decide, by decide⟩
  · rw [hs, hc]; rfl
  · rw [hs, hc]
    have hf : ([(⟨"A", "X", 100, none, none, true, YearVal.unknown⟩ : DRecord)].filter
        fun r => decide (r.year = YearVal.unknown)) =
        [⟨"A", "X", 100, none, none, true, YearVal.unknown⟩] := rfl
    rw [avg_height, hf]
    norm_num

/-- C1 amended: the groupby of line 99 runs over the year column already
mutated by line 39, so rows with raw year 0 are aggregated under the
"Unknown" key; for every NONZERO year the group and its mean height agree
exactly with grouping by the raw numeric year, and the worked example
(2000 ↦ 150, 2010 ↦ 300, absent years ↦ no entry) holds. -/
theorem C1_averageHeightByCompletionYear (store : List Record) (y : ℤ)
    (hy : y ≠ 0) :
    avg_height (completed_df (sortValues store)) (YearVal.num y) =
      rawYearGroupMean store y ∧
    avg_height exampleYearRecords (YearVal.num 2000) = some 150 ∧
    avg_height exampleYearRecords (YearVal.num 2010) = some 300 ∧
    avg_height exampleYearRecords (YearVal.num 2005) = none := by
  refine ⟨?_, ?_, ?_, ?_⟩
  · rw [avg_height, rawYearGroupMean, completed_filter_year _ y hy]
    have hperm : (((sortValues store).filter fun r =>
        r.isCompleted && decide (r.completionYear = y))).Perm
        (store.filter fun r => r.isCompleted && decide (r.completionYear = y)) :=
      (sortValues_perm store).filter _
    have hlen := hperm.length_eq
    have hsum : (((sortValues store).filter fun r =>
        r.isCompleted && decide (r.completionYear = y)).map fun r => r.height).sum =
        ((store.filter fun r =>
          r.isCompleted && decide (r.completionYear = y)).map fun r => r.height).sum :=
      (hperm.map _).sum_eq
    rw [List.map_map, substYears_height, List.length_map]
    by_cases h0 : (store.filter fun r =>
        r.isCompleted && decide (r.completionYear = y)) = []
    · have hL : ((sortValues store).filter fun r =>
          r.isCompleted && decide (r.completionYear = y)) = [] :=
        List.Perm.eq_nil (h0 ▸ hperm)
      rw [hL, h0]
      rfl
    · have hL : ((sortValues store).filter fun r =>
          r.isCompleted && decide (r.completionYear = y)) ≠ [] := by
        intro h
        exact h0 ((h ▸ hperm).symm.eq_nil)
      rw [if_neg ?c1, if_neg ?c2]
      case c1 =>
        intro hcond
        apply hL
        rw [← List.length_eq_zero]
        have h2 := List.isEmpty_iff_length_eq_zero.mp hcond
        rwa [List.length_map] at h2
      case c2 =>
        intro hcond
        exact h0 (List.isEmpty_iff.mp hcond)
      rw [hsum, hlen]
  · have hf : (exampleYearRecords.filter fun r => decide (r.year = YearVal.num 2000)) =
        [⟨"E1", "X", 100, none, none, true, .num 2000⟩,
         ⟨"E2", "X", 200, none, none, true, .num 2000⟩] := rfl
    rw [avg_height, hf]
    norm_num
  · have hf : (exampleYearRecords.filter fun r => decide (r.year = YearVal.num 2010)) =
        [⟨"E3", "X", 300, none, none, true, .num 2010⟩] := rfl
    rw [avg_height, hf]
    norm_num
  · have hf : (exampleYearRecords.filter fun r => decide (r.year = YearVal.num 2005)) =
        ([] : List DRecord) := rfl
    rw [avg_height, hf]
    rfl

/-- C1 witness: the amended statement evaluated at the three-record store
and the nonzero year 1999. -/
theorem C1_averageHeightByCompletionYear_witness :
    (1999 : ℤ) ≠ 0 ∧
    (avg_height (completed_df (sortValues [bldA, bldB, bldC])) (YearVal.num 1999) =
      rawYearGroupMean [bldA, bldB, bldC] 1999 ∧
    avg_height exampleYearRecords (YearVal.num 2000) = some 150 ∧
    avg_height exampleYearRecords (YearVal.num 2010) = some 300 ∧
    avg_height exampleYearRecords (YearVal.num 2005) = none) :=
  ⟨by decide, C1_averageHeightByCompletionYear [bldA, bldB, bldC] 1999 (by decide)⟩

/-- C7: assuming the read_csv convention that an empty CSV city cell is
NaN (a present textual cell is never the empty string), every record of
the cleaned store has positive height and a non-empty city string coerced
unconditionally from its raw cell, and the same invariant holds for every
record returned by the sorted view, the top-N query, the map range query
and the completed view. -/
theorem C7_load_invariant (raw : List RawRecord)
    (hne : ∀ rr ∈ raw, ∀ s, rr.city = some (CityCell.str s) → s ≠ "") :
    (∀ rec ∈ load raw, 0 < rec.height ∧ rec.city ≠ "" ∧
      ∃ rr ∈ raw, ∃ c, rr.city = some c ∧ rec.city = pyStr c) ∧
    (∀ rec ∈ sortValues (load raw), 0 < rec.height ∧ rec.city ≠ "") ∧
    (∀ (city : String) (n : ℕ),
      ∀ rec ∈ (get_tallest_skyscrapers (sortValues (load raw)) city n).1,
        0 < rec.height ∧ rec.city ≠ "") ∧
    (∀ (city : String) (lo hi : ℚ),
      ∀ rec ∈ map_filtered_df (sortValues (load raw)) city lo hi,
        0 < rec.height ∧ rec.city ≠ "") ∧
    (∀ d ∈ completed_df (sortValues (load raw)), 0 < d.height ∧ d.city ≠ "") := by
  have key : ∀ rec ∈ load raw, 0 < rec.height ∧ rec.city ≠ "" ∧
      ∃ rr ∈ raw, ∃ c, rr.city = some c ∧ rec.city = pyStr c := by
    intro rec hrec
    obtain ⟨rr, hmem, c, hc, hh, rfl⟩ := mem_load hrec
    refine ⟨hh, ?_, rr, hmem, c, hc, rfl⟩
    apply pyStr_ne_empty
    intro s hcs
    apply hne rr hmem s
    rw [hc, hcs]
  have keyS : ∀ rec ∈ sortValues (load raw), 0 < rec.height ∧ rec.city ≠ "" := by
    intro rec h
    have h2 := (sortValues_perm (load raw)).mem_iff.mp h
    exact ⟨(key rec h2).1, (key rec h2).2.1⟩
  refine ⟨key, keyS, ?_, ?_, ?_⟩
  · intro city n rec hrec
    by_cases h : city = "ALL CITIES"
    · simp only [get_tallest_skyscrapers, if_pos h] at hrec
      exact keyS rec (List.mem_of_mem_take hrec)
    · simp only [get_tallest_skyscrapers, if_neg h] at hrec
      exact keyS rec (List.mem_filter.mp (List.mem_of_mem_take hrec)).1
  · intro city lo hi rec hrec
    rw [map_filtered_df] at hrec
    by_cases h : city = "ALL CITIES"
    · rw [if_pos h] at hrec
      exact keyS rec (List.mem_filter.mp hrec).1
    · rw [if_neg h] at hrec
      exact keyS rec (List.mem_filter.mp hrec).1
  · intro d hd
    obtain ⟨r, hrf, rfl⟩ := List.mem_map.mp hd
    have hr := keyS r (List.mem_filter.mp hrf).1
    exact ⟨hr.1, hr.2⟩

/-- wRaw is a sample raw CSV: a textual city, a numeric-looking city, a
missing city (dropped at load) and a zero height (dropped at load). -/
def wRaw : List RawRecord :=
  [⟨"A", some (.str "X"), 100, none, none, true, 0⟩,
   ⟨"N", some (.intNum 7), 50, none, none, false, 2001⟩,
   ⟨"M", none, 20, none, none, true, 1990⟩,
   ⟨"Z", some (.str "Q"), 0, none, none, true, 1980⟩]

/-- C7 witness: the load invariant evaluated at the sample raw CSV. -/
theorem C7_load_invariant_witness :
    (∀ rr ∈ wRaw, ∀ s, rr.city = some (CityCell.str s) → s ≠ "") ∧
    ((∀ rec ∈ load wRaw, 0 < rec.height ∧ rec.city ≠ "" ∧
      ∃ rr ∈ wRaw, ∃ c, rr.city = some c ∧ rec.city = pyStr c) ∧
    (∀ rec ∈ sortValues (load wRaw), 0 < rec.height ∧ rec.city ≠ "") ∧
    (∀ (city : String) (n : ℕ),
      ∀ rec ∈ (get_tallest_skyscrapers (sortValues (load wRaw)) city n).1,
        0 < rec.height ∧ rec.city ≠ "") ∧
    (∀ (city : String) (lo hi : ℚ),
      ∀ rec ∈ map_filtered_df (sortValues (load wRaw)) city lo hi,
        0 < rec.height ∧ rec.city ≠ "") ∧
    (∀ d ∈ completed_df (sortValues (load wRaw)), 0 < d.height ∧ d.city ≠ "")) :=
  ⟨by
    intro rr hrr s hs
    simp only [wRaw, List.mem_cons, List.not_mem_nil, or_false] at hrr
    rcases hrr with rfl | rfl | rfl | rfl <;> simp_all <;> (subst hs; decide),
   C7_load_invariant wRaw (by
    intro rr hrr s hs
    simp only [wRaw, List.mem_cons, List.not_mem_nil, or_false] at hrr
    rcases hrr with rfl | rfl | rfl | rfl <;> simp_all <;> (subst hs; decide))⟩
